import Mathlib

/-!
Shallow embedding of `sleep-when-idle.py`, an idle-detection and
sleep-orchestration daemon.

Modelling choices:
* Wall-clock timestamps and durations are rationals, in seconds
  (Python floats / `datetime` arithmetic).
* Python exceptions are modelled with `Except PyError`; a raised exception
  that the source does not catch shows up as an `.error` result.
* External commands (`/proc/uptime`, `ip -j -s link`, `pacmd`, `xprintidle`,
  `systemctl`, `rtcwake`) are inputs of each tick: a `Probes` record holds
  the outcome each command would have if invoked during that tick.
* The mutable fields of the `SleepWhenIdle` object are the `Context`
  structure; methods become functions from `Context` to `Context`
  (or `Except PyError Context` when they can raise).
-/

namespace SleepWhenIdle

/-- Kinds of Python exceptions the embedded code can raise. -/
inductive PyError where
  | calledProcessError
  | zeroDivisionError
  | attributeError
deriving DecidableEq, Repr

/-- `class NetStat(typing.NamedTuple)` with its field defaults. -/
structure NetStat where
  ifname : String := "No UP interface"
  rx_packets : Int := 0
  tx_packets : Int := 0
deriving DecidableEq, Repr

/-- `datetime.time`: a time of day, hour/minute/second. -/
structure Time where
  hour : Nat
  minute : Nat
  second : Nat
deriving DecidableEq, Repr

/-- Parsed command-line arguments (`self.args`).  `--x-input` and `--audio`
are `store_true` flags, so they are booleans (`False` by default, never
`None`); `--cpu` and `--network` have no default, so they are `None` when
absent; `--time` defaults to `10m` (600 s) and `--meas-period` to
`10s` (10 s), both converted to seconds by `parse_duration`. -/
structure Args where
  pretend : Bool
  time : ℚ
  wake_up : Option Time
  x_input : Bool
  audio : Bool
  meas_period : ℚ
  cpu : Option Int
  network : Option Int
deriving DecidableEq, Repr

/-- The mutable dynamic context of the `SleepWhenIdle` object. -/
structure Context where
  prev_cpu_idle_counter : ℚ
  prev_net_stat : NetStat
  last_idle : ℚ
  prev_check : ℚ
  now : ℚ
deriving DecidableEq, Repr

/-- Outcomes of the external commands, as they would result if invoked
during the current tick. -/
structure Probes where
  cpu_idle : Except PyError ℚ
  net : Except PyError NetStat
  audio_running : Except PyError Bool
  x_idle_ms : Except PyError Int
  sleep_cmd : Except PyError Unit
  wake_cmd : Except PyError Unit
  clear_cmd : Except PyError Unit

/-- `self.cpu_idle_threshold = 1 - self.args.cpu / 100`, computed in
`__init__` when `--cpu` is given. -/
def cpu_idle_threshold (cpu : Int) : ℚ := 1 - (cpu : ℚ) / 100

/-- The field assignments of `reset` (lines 273-277): zero the previous CPU
idle counter, reset the previous net stats to the `NetStat()` sentinel, and
set `last_idle`, `prev_check` and `now` to the fresh `datetime_now()`
reading `t`. -/
def reset_ctx (t : ℚ) : Context :=
  { prev_cpu_idle_counter := 0
    prev_net_stat := {}
    last_idle := t
    prev_check := t
    now := t }

/-- `delete_any_wakeup`: runs `rtcwake -m disable` (which may raise, as
`check=True` is set) only when a wake-up time is configured and not in
pretend mode. -/
def delete_any_wakeup (A : Args) (p : Probes) : Except PyError Unit :=
  if A.wake_up.isSome then
    if !A.pretend then p.clear_cmd else Except.ok ()
  else Except.ok ()

/-- `reset`: reset the dynamic context fields, then delete any programmed
wake-up. -/
def reset (A : Args) (p : Probes) (t : ℚ) : Except PyError Context := do
  let ctx := reset_ctx t
  let _ ← delete_any_wakeup A p
  Except.ok ctx

/-- `reset_idle(idle_delta=None)`: with no argument, a full reset
(`last_idle = now`); with an `idle_delta`, move `last_idle` to
`now - idle_delta` only when that instant is later than the current
`last_idle`. -/
def reset_idle (ctx : Context) (idle_delta : Option ℚ) : Context :=
  match idle_delta with
  | none => { ctx with last_idle := ctx.now }
  | some d =>
    let last_idle := ctx.now - d
    if last_idle > ctx.last_idle then { ctx with last_idle := last_idle } else ctx

/-- `check_audio`, given the outcome of the `pacmd list-sink-inputs` probe
(`running` = the output contains `state: RUNNING`). -/
def check_audio (ctx : Context) (running : Bool) : Context :=
  if running then reset_idle ctx none else ctx

/-- `check_cpu`: Python computes
`(counter - prev) / nb_threads / (now - prev_check).total_seconds()`;
each division raises `ZeroDivisionError` when its divisor is zero (the
source has no guard for a zero or negative elapsed time).  If the average
idle fraction is below the threshold, full reset; finally store the new
counter. -/
def check_cpu (nb_threads : Nat) (threshold : ℚ) (ctx : Context)
    (cpu_idle_counter : ℚ) : Except PyError Context :=
  if (nb_threads : ℚ) = 0 then Except.error PyError.zeroDivisionError
  else if ctx.now - ctx.prev_check = 0 then Except.error PyError.zeroDivisionError
  else
    let average_cpu_idle :=
      (cpu_idle_counter - ctx.prev_cpu_idle_counter) / (nb_threads : ℚ)
        / (ctx.now - ctx.prev_check)
    let ctx2 := if average_cpu_idle < threshold then reset_idle ctx none else ctx
    Except.ok { ctx2 with prev_cpu_idle_counter := cpu_idle_counter }

/-- `check_net`, given the `NetStat` returned by the probe: full reset when
the interface name changed, or when the received or transmitted packet
count grew by more than `network` (the `--network` limit); then store the
new stats. -/
def check_net (network : Int) (ctx : Context) (net_stat : NetStat) : Context :=
  let ctx2 :=
    if net_stat.ifname ≠ ctx.prev_net_stat.ifname
        ∨ net_stat.rx_packets > ctx.prev_net_stat.rx_packets + network
        ∨ net_stat.tx_packets > ctx.prev_net_stat.tx_packets + network
    then reset_idle ctx none
    else ctx
  { ctx2 with prev_net_stat := net_stat }

/-- `check_x_input`, given the millisecond value returned by `xprintidle`:
convert to a duration and, when shorter than the wanted idle duration,
apply the bounded `reset_idle` correction. -/
def check_x_input (wanted_idle_duration : ℚ) (ctx : Context) (x_idle_ms : Int) :
    Context :=
  let x_idle : ℚ := (x_idle_ms : ℚ) / 1000
  if x_idle < wanted_idle_duration then reset_idle ctx (some x_idle) else ctx

/-- The Python test `self.args.x_input is not None` (lines 251 and 315).
`--x-input` is declared with `action="store_true"`, so `args.x_input` is
always the bool `False` or `True` and never `None`: the test holds for
every parsed argument vector. -/
def x_input_is_not_none (_A : Args) : Bool := true

/-- `get_x_input_idle`: runs `xprintidle` as `self.user`.  `__init__` only
sets `self.user` when `--x-input` or `--audio` was given; otherwise the
attribute access raises `AttributeError`.  When the attribute exists, the
probe itself may still fail. -/
def get_x_input_idle (A : Args) (p : Probes) : Except PyError Int :=
  if A.x_input || A.audio then p.x_idle_ms else Except.error PyError.attributeError

/-- The idle-duration condition `self.now > self.last_idle +
self.wanted_idle_duration`, which appears verbatim in the X-input guard
(line 315) and in the sleep decision (line 319). -/
def idle_enough (A : Args) (ctx : Context) : Bool :=
  decide (ctx.now > ctx.last_idle + A.time)

/-- `go_to_sleep`: program the wake-up when one is configured (the
`rtcwake -m no` call may raise before anything else happens), then reset
`last_idle` to `now` to prevent multiple sleep requests in a row, then
issue the asynchronous `systemctl <state>` request (which may raise). -/
def go_to_sleep (A : Args) (p : Probes) (ctx : Context) : Except PyError Context := do
  let _ ← (if A.wake_up.isSome then
            (if !A.pretend then p.wake_cmd else Except.ok ())
           else Except.ok ())
  let ctx2 := { ctx with last_idle := ctx.now }
  let _ ← (if !A.pretend then p.sleep_cmd else Except.ok ())
  Except.ok ctx2

/-- What one iteration of the `run` loop did: the resulting context, which
branch was taken, which external checks actually executed, and whether a
sleep request was issued. -/
structure TickResult where
  ctx : Context
  did_reset : Bool
  cleared_wakeup : Bool
  ran_cpu : Bool
  ran_net : Bool
  ran_audio : Bool
  ran_x : Bool
  slept : Bool
deriving DecidableEq, Repr

/-- One iteration of the `run` loop body (lines 286-323), entered after the
inter-tick wait with `now` the re-read clock value; `reset_now` is the
fresh `datetime_now()` reading taken inside `reset` if the missed-period
branch runs.  Any uncaught exception propagates as `.error` — the loop has
no try/except, so such an error terminates the daemon. -/
def run_tick (A : Args) (nb_threads : Nat) (ctx0 : Context) (now reset_now : ℚ)
    (p : Probes) : Except PyError TickResult :=
  let next_check := ctx0.prev_check + A.meas_period
  let ctx := { ctx0 with now := now }
  if now > next_check + A.meas_period then do
    -- skipping a check period indicates a sleep cycle: reset completely, continue
    let ctxR ← reset A p reset_now
    Except.ok { ctx := ctxR, did_reset := true, cleared_wakeup := A.wake_up.isSome,
                ran_cpu := false, ran_net := false, ran_audio := false,
                ran_x := false, slept := false }
  else do
    let s1 ← (match A.cpu with
      | some c => do
          let counter ← p.cpu_idle
          let ctx1 ← check_cpu nb_threads (cpu_idle_threshold c) ctx counter
          Except.ok (ctx1, true)
      | none => Except.ok (ctx, false))
    let s2 ← (match A.network with
      | some limit => do
          let stat ← p.net
          Except.ok (check_net limit s1.1 stat, true)
      | none => Except.ok (s1.1, false))
    let s3 ← (if A.audio then do
          let running ← p.audio_running
          Except.ok (check_audio s2.1 running, true)
        else Except.ok (s2.1, false))
    let s4 ← (if x_input_is_not_none A && idle_enough A s3.1 then do
          let ms ← get_x_input_idle A p
          Except.ok (check_x_input A.time s3.1 ms, true)
        else Except.ok (s3.1, false))
    let s5 ← (if idle_enough A s4.1 then do
          let ctx5 ← go_to_sleep A p s4.1
          Except.ok (ctx5, true)
        else Except.ok (s4.1, false))
    Except.ok { ctx := { s5.1 with prev_check := now },
                did_reset := false, cleared_wakeup := false,
                ran_cpu := s1.2, ran_net := s2.2, ran_audio := s3.2,
                ran_x := s4.2, slept := s5.2 }

/-- Outcome of the startup X-access validation block. -/
inductive StartupResult where
  | passed
  | exited
  | raised (e : PyError)
deriving DecidableEq, Repr

/-- The startup X-access validation (lines 250-263), guarded by
`if self.args.x_input is not None`.  A `CalledProcessError` is retried up
to 10 times and then `sys.exit(1)`; since the probe outcome is modelled as
deterministic for the whole block, the retry loop collapses: a persistent
`CalledProcessError` exits, any other exception (notably the
`AttributeError` from the missing `self.user`) propagates uncaught. -/
def startup_x_validation (A : Args) (p : Probes) : StartupResult :=
  if x_input_is_not_none A then
    match get_x_input_idle A p with
    | Except.ok _ => StartupResult.passed
    | Except.error PyError.calledProcessError => StartupResult.exited
    | Except.error e => StartupResult.raised e
  else StartupResult.passed

/-- A timezone-local `datetime.datetime`, split as the proleptic ordinal
day number and the time of day in seconds. -/
structure DateTime where
  day : Int
  tod : ℚ
deriving DecidableEq, Repr

/-- Seconds since midnight of a `datetime.time`. -/
def Time.toSeconds (t : Time) : ℚ :=
  3600 * (t.hour : ℚ) + 60 * (t.minute : ℚ) + (t.second : ℚ)

/-- `datetime.datetime.combine(date, time)`. -/
def combine (day : Int) (t : Time) : DateTime := ⟨day, t.toSeconds⟩

/-- Python comparison of two (same-timezone) datetimes: lexicographic on
(date, time of day). -/
def DateTime.lt (a b : DateTime) : Prop :=
  a.day < b.day ∨ (a.day = b.day ∧ a.tod < b.tod)

instance (a b : DateTime) : Decidable (DateTime.lt a b) := by
  unfold DateTime.lt
  infer_instance

/-- The wake instant computed by `program_wakeup` (lines 452-458): combine
the date of `now` with the configured time; if that instant is before
`now`, use the next date instead. -/
def program_wakeup_instant (now : DateTime) (wake_up_time : Time) : DateTime :=
  let wake_up := combine now.day wake_up_time
  if DateTime.lt wake_up now then combine (now.day + 1) wake_up_time else wake_up

/-- The parsed arguments of a run with no options at all: every flag at its
default (`--time` 10m = 600 s, `--meas-period` 10s). -/
def argsNone : Args :=
  { pretend := false
    time := 600
    wake_up := none
    x_input := false
    audio := false
    meas_period := 10
    cpu := none
    network := none }

/-- Probe outcomes of a tick during which every external command succeeds:
the CPU idle counter reads 1000 s, no interface is UP, no audio plays, and
the X server reports one hour without input. -/
def probesOk : Probes :=
  { cpu_idle := Except.ok 1000
    net := Except.ok {}
    audio_running := Except.ok false
    x_idle_ms := Except.ok 3600000
    sleep_cmd := Except.ok ()
    wake_cmd := Except.ok ()
    clear_cmd := Except.ok () }

/-- Build a `Context` from its five fields, in declaration order. -/
def mkCtx (counter : ℚ) (s : NetStat) (li pc n : ℚ) : Context :=
  { prev_cpu_idle_counter := counter
    prev_net_stat := s
    last_idle := li
    prev_check := pc
    now := n }

/-- The bounded correction of `reset_idle` with a delta computes the later
of the current `last_idle` and `now - idle_delta`. -/
theorem reset_idle_some_last_idle (ctx : Context) (d : ℚ) :
    (reset_idle ctx (some d)).last_idle = max ctx.last_idle (ctx.now - d) := by
  rcases le_or_lt (ctx.now - d) ctx.last_idle with h | h
  · simp only [reset_idle]
    rw [if_neg (not_lt.mpr h), max_eq_left h]
  · simp only [reset_idle]
    rw [if_pos h, max_eq_right h.le]

/-- `check_net` either fully resets `last_idle` to `now` or leaves it. -/
theorem check_net_last_idle (network : Int) (ctx : Context) (s : NetStat) :
    (check_net network ctx s).last_idle = ctx.now ∨
      (check_net network ctx s).last_idle = ctx.last_idle := by
  simp only [check_net]
  split
  · left; rfl
  · right; rfl

/-- A successful `check_cpu` either fully resets `last_idle` to `now` or
leaves it. -/
theorem check_cpu_last_idle (nb : Nat) (th : ℚ) (ctx : Context) (counter : ℚ)
    (r : Context) (h : check_cpu nb th ctx counter = Except.ok r) :
    r.last_idle = ctx.now ∨ r.last_idle = ctx.last_idle := by
  unfold check_cpu at h
  split at h
  · simp at h
  · split at h
    · simp at h
    · simp only [Except.ok.injEq] at h
      subst h
      split
      · left; rfl
      · right; rfl

/-- When no divisor is zero and the average idle fraction is not below the
threshold, `check_cpu` succeeds and only stores the new counter. -/
theorem check_cpu_ok (nb : Nat) (th : ℚ) (ctx : Context) (counter : ℚ)
    (h1 : (nb : ℚ) ≠ 0) (h2 : ctx.now - ctx.prev_check ≠ 0)
    (h3 : ¬((counter - ctx.prev_cpu_idle_counter) / (nb : ℚ)
            / (ctx.now - ctx.prev_check) < th)) :
    check_cpu nb th ctx counter
      = Except.ok { ctx with prev_cpu_idle_counter := counter } := by
  unfold check_cpu
  rw [if_neg h1, if_neg h2]
  simp only [if_neg h3]

/-- Claim C1, evaluated at the failing input: with the X-input option NOT
enabled (a run with no options, `args.x_input = False`), the guard
`self.args.x_input is not None` still holds — a `store_true` flag is never
`None` — so the startup validation invokes the X probe (raising the
uncaught `AttributeError` from the missing `self.user`), and a per-tick X
evaluation is attempted (and likewise raises) as soon as the idle
condition holds, contradicting the claim that the X probe is never called
when the option is not enabled. -/
theorem c1_x_probe_invoked_though_disabled :
    argsNone.x_input = false
    ∧ startup_x_validation argsNone probesOk
        = StartupResult.raised PyError.attributeError
    ∧ run_tick argsNone 4 (mkCtx 0 {} 0 610 0) 615 615 probesOk
        = Except.error PyError.attributeError := by
  refine ⟨rfl, ?_, ?_⟩
  · simp [startup_x_validation, get_x_input_idle, x_input_is_not_none, argsNone, probesOk]
  · norm_num [run_tick, argsNone, probesOk, mkCtx, x_input_is_not_none,
      get_x_input_idle, idle_enough, Bind.bind, Except.bind]

/-- Claim C2, evaluated at the failing inputs: a `CalledProcessError` from
the network probe (`ip -j -s link`) during a tick with the network check
enabled propagates out of the scheduler loop, and so does a
`CalledProcessError` from the `systemctl` sleep request of a triggering
tick — `run` has no try/except, so either error terminates the daemon
instead of being logged with the loop continuing. -/
theorem c2_probe_and_power_failures_propagate :
    run_tick { argsNone with network := some 100 } 4 (mkCtx 0 {} 0 0 0) 10 10
        { probesOk with net := Except.error PyError.calledProcessError }
      = Except.error PyError.calledProcessError
    ∧ run_tick { argsNone with audio := true, time := 10, meas_period := 5 } 4
        (mkCtx 0 {} 0 10 0) 15 15
        { probesOk with sleep_cmd := Except.error PyError.calledProcessError }
      = Except.error PyError.calledProcessError := by
  constructor
  · norm_num [run_tick, argsNone, probesOk, mkCtx, x_input_is_not_none,
      get_x_input_idle, idle_enough, Bind.bind, Except.bind]
  · norm_num [run_tick, argsNone, probesOk, mkCtx, x_input_is_not_none,
      get_x_input_idle, idle_enough, check_audio, check_x_input, reset_idle,
      go_to_sleep, Bind.bind, Except.bind]

/-- Claim C3, evaluated at the failing inputs: `check_cpu` has no guard on
the elapsed time.  With a zero elapsed time it raises `ZeroDivisionError`
(which propagates out of the scheduler loop, as the `run_tick` conjunct
shows), and with a negative elapsed time it divides anyway, obtains a
negative average idle fraction, and RESETS `last_idle` to `now` — the
claim says the check is skipped without dividing and without resetting. -/
theorem c3_cpu_check_no_elapsed_guard :
    check_cpu 4 (cpu_idle_threshold 20) (mkCtx 0 {} 0 7 7) 100
      = Except.error PyError.zeroDivisionError
    ∧ run_tick { argsNone with cpu := some 20 } 4 (mkCtx 0 {} 0 5 0) 5 5 probesOk
      = Except.error PyError.zeroDivisionError
    ∧ check_cpu 4 (cpu_idle_threshold 20) (mkCtx 0 {} 0 12 7) 100
      = Except.ok (mkCtx 100 {} 7 12 7) := by
  refine ⟨?_, ?_, ?_⟩
  · norm_num [check_cpu, mkCtx]
  · norm_num [run_tick, argsNone, probesOk, mkCtx, check_cpu, cpu_idle_threshold,
      x_input_is_not_none, get_x_input_idle, idle_enough, Bind.bind, Except.bind]
  · norm_num [check_cpu, cpu_idle_threshold, reset_idle, mkCtx]

/-- Claim C4, counterexample: with no signals enabled,
`idle_duration_required` = 10 s and `measurement_period` = 5 s, the second
tick after startup has `now - last_activity` = 10 s, exactly the required
duration, so the claimed `>=` trigger condition holds — yet the code (line
319) compares strictly and issues no sleep request on that tick. -/
theorem c4_no_sleep_at_exact_threshold :
    (10 : ℚ) - 0 ≥ 10
    ∧ (run_tick { argsNone with time := 10, meas_period := 5 } 4
          (mkCtx 0 {} 0 5 0) 10 10 probesOk).map TickResult.slept
      = Except.ok false := by
  constructor
  · norm_num
  · norm_num [run_tick, argsNone, probesOk, mkCtx, x_input_is_not_none,
      get_x_input_idle, idle_enough, Bind.bind, Except.bind, Except.map]

/-- Claim C4 as amended: the sleep decision of the scheduler (and the
identical X-input gate) fires exactly when `now - last_activity` is
STRICTLY greater than `idle_duration_required`; consequently, in the
scenario with `idle_duration_required` = 10 s and `measurement_period` =
5 s and exact tick times, the second tick (elapsed exactly 10 s) does not
issue the sleep request. -/
theorem c4_sleep_trigger_strict :
    (∀ (A : Args) (ctx : Context),
      idle_enough A ctx = true ↔ ctx.now - ctx.last_idle > A.time)
    ∧ (run_tick { argsNone with time := 10, meas_period := 5 } 4
          (mkCtx 0 {} 0 5 0) 10 10 probesOk).map TickResult.slept
      = Except.ok false := by
  constructor
  · intro A ctx
    simp [idle_enough]
    constructor <;> intro h <;> linarith
  · norm_num [run_tick, argsNone, probesOk, mkCtx, x_input_is_not_none,
      get_x_input_idle, idle_enough, Bind.bind, Except.bind, Except.map]

/-- Claim C5: whenever `now > next_check + measurement_period`, i.e. more
than one full period beyond the scheduled tick, the scheduler performs the
full reset — `last_idle` set to the fresh clock reading, previous CPU and
network baselines cleared to their sentinels, the wake-up deletion invoked
exactly when one is configured — and skips every signal evaluation and the
sleep decision for that tick. -/
theorem c5_missed_period_resets_and_skips (A : Args) (p : Probes) (nb : Nat)
    (ctx : Context) (now reset_now : ℚ)
    (hmiss : now > ctx.prev_check + A.meas_period + A.meas_period)
    (hclear : delete_any_wakeup A p = Except.ok ()) :
    run_tick A nb ctx now reset_now p
      = Except.ok
          { ctx := reset_ctx reset_now, did_reset := true
            cleared_wakeup := A.wake_up.isSome
            ran_cpu := false, ran_net := false, ran_audio := false
            ran_x := false, slept := false }
    ∧ (reset_ctx reset_now).last_idle = reset_now
    ∧ (reset_ctx reset_now).prev_cpu_idle_counter = 0
    ∧ (reset_ctx reset_now).prev_net_stat = { } := by
  refine ⟨?_, rfl, rfl, rfl⟩
  rw [run_tick]
  rw [if_pos (by linarith)]
  simp [reset, hclear, Bind.bind, Except.bind]

/-- Claim C5 witness: the spec example — `measurement_period` = 10 s and a
tick arriving at `previous_tick + 25 s` — reached from dirty tracker
state. -/
theorem c5_missed_period_witness :
    (25 : ℚ) > 0 + argsNone.meas_period + argsNone.meas_period
    ∧ delete_any_wakeup argsNone probesOk = Except.ok ()
    ∧ (run_tick argsNone 4 (mkCtx 3 { ifname := "eth0" } 2 0 0) 25 25 probesOk
        = Except.ok
            { ctx := reset_ctx 25, did_reset := true
              cleared_wakeup := argsNone.wake_up.isSome
              ran_cpu := false, ran_net := false, ran_audio := false
              ran_x := false, slept := false }
      ∧ (reset_ctx 25).last_idle = 25
      ∧ (reset_ctx 25).prev_cpu_idle_counter = 0
      ∧ (reset_ctx 25).prev_net_stat = { }) :=
  ⟨by norm_num [argsNone], by rfl,
    c5_missed_period_resets_and_skips argsNone probesOk 4
      (mkCtx 3 { ifname := "eth0" } 2 0 0) 25 25
      (by norm_num [argsNone, mkCtx]) (by rfl)⟩

/-- Claim C6: relative to a state satisfying the invariant
`last_activity <= now`, every tracker operation preserves the invariant and
never moves `last_activity` backward: the full reset to a later clock
reading, the in-tick full reset, the network, audio, X-input and (when it
succeeds) CPU evaluations; and the X-input correction moves `last_idle` to
`now - idle_delta` exactly when that instant is later than the current
value (it computes the max of the two), never earlier. -/
theorem c6_last_activity_forward_only (ctx : Context)
    (h : ctx.last_idle ≤ ctx.now)
    (t d : ℚ) (ht : ctx.last_idle ≤ t) (hd : 0 ≤ d)
    (network : Int) (s : NetStat) (running : Bool)
    (ms : Int) (hms : 0 ≤ ms) (wanted : ℚ)
    (nb : Nat) (th : ℚ) (counter : ℚ) (r : Context)
    (hcpu : check_cpu nb th ctx counter = Except.ok r) :
    ((reset_ctx t).last_idle = t ∧ ctx.last_idle ≤ (reset_ctx t).last_idle
      ∧ (reset_ctx t).last_idle ≤ (reset_ctx t).now)
    ∧ ((reset_idle ctx none).last_idle = ctx.now
      ∧ ctx.last_idle ≤ (reset_idle ctx none).last_idle
      ∧ (reset_idle ctx none).last_idle ≤ ctx.now)
    ∧ ((reset_idle ctx (some d)).last_idle = max ctx.last_idle (ctx.now - d)
      ∧ ctx.last_idle ≤ (reset_idle ctx (some d)).last_idle
      ∧ (reset_idle ctx (some d)).last_idle ≤ ctx.now)
    ∧ (ctx.last_idle ≤ (check_net network ctx s).last_idle
      ∧ (check_net network ctx s).last_idle ≤ ctx.now)
    ∧ (ctx.last_idle ≤ (check_audio ctx running).last_idle
      ∧ (check_audio ctx running).last_idle ≤ ctx.now)
    ∧ (ctx.last_idle ≤ (check_x_input wanted ctx ms).last_idle
      ∧ (check_x_input wanted ctx ms).last_idle ≤ ctx.now)
    ∧ (ctx.last_idle ≤ r.last_idle ∧ r.last_idle ≤ ctx.now) := by
  have hmax : max ctx.last_idle (ctx.now - d) ≤ ctx.now :=
    max_le h (by linarith)
  refine ⟨⟨rfl, ht, le_refl t⟩, ⟨rfl, h, le_refl _⟩,
    ⟨reset_idle_some_last_idle ctx d, ?_, ?_⟩, ?_, ?_, ?_, ?_⟩
  · rw [reset_idle_some_last_idle]; exact le_max_left _ _
  · rw [reset_idle_some_last_idle]; exact hmax
  · rcases check_net_last_idle network ctx s with hn | hn <;> rw [hn]
    · exact ⟨h, le_refl _⟩
    · exact ⟨le_refl _, h⟩
  · cases running <;> simp [check_audio, reset_idle, h]
  · by_cases hx : ((ms : ℚ) / 1000) < wanted
    · simp only [check_x_input, if_pos hx]
      rw [reset_idle_some_last_idle]
      have hd2 : (0 : ℚ) ≤ (ms : ℚ) / 1000 := by positivity
      exact ⟨le_max_left _ _, max_le h (by linarith)⟩
    · simp only [check_x_input, if_neg hx]
      exact ⟨le_refl _, h⟩
  · rcases check_cpu_last_idle nb th ctx counter r hcpu with hc | hc <;> rw [hc]
    · exact ⟨h, le_refl _⟩
    · exact ⟨le_refl _, h⟩

/-- Claim C6 witness: the forward-only properties at a concrete state with
`last_idle` = 3, `now` = 5, reset reading 7, X delta 2 s (500 ms probe),
and a CPU sample far above the threshold. -/
theorem c6_forward_only_witness :
    (mkCtx 0 { } 3 0 5).last_idle ≤ (mkCtx 0 { } 3 0 5).now
    ∧ (mkCtx 0 { } 3 0 5).last_idle ≤ 7
    ∧ (0 : ℚ) ≤ 2
    ∧ (0 : Int) ≤ 500
    ∧ check_cpu 2 (4 / 5) (mkCtx 0 { } 3 0 5) 100 = Except.ok (mkCtx 100 { } 3 0 5)
    ∧ (((reset_ctx 7).last_idle = 7
        ∧ (mkCtx 0 { } 3 0 5).last_idle ≤ (reset_ctx 7).last_idle
        ∧ (reset_ctx 7).last_idle ≤ (reset_ctx 7).now)
      ∧ ((reset_idle (mkCtx 0 { } 3 0 5) none).last_idle = (mkCtx 0 { } 3 0 5).now
        ∧ (mkCtx 0 { } 3 0 5).last_idle ≤ (reset_idle (mkCtx 0 { } 3 0 5) none).last_idle
        ∧ (reset_idle (mkCtx 0 { } 3 0 5) none).last_idle ≤ (mkCtx 0 { } 3 0 5).now)
      ∧ ((reset_idle (mkCtx 0 { } 3 0 5) (some 2)).last_idle
            = max (mkCtx 0 { } 3 0 5).last_idle ((mkCtx 0 { } 3 0 5).now - 2)
        ∧ (mkCtx 0 { } 3 0 5).last_idle
            ≤ (reset_idle (mkCtx 0 { } 3 0 5) (some 2)).last_idle
        ∧ (reset_idle (mkCtx 0 { } 3 0 5) (some 2)).last_idle ≤ (mkCtx 0 { } 3 0 5).now)
      ∧ ((mkCtx 0 { } 3 0 5).last_idle ≤ (check_net 0 (mkCtx 0 { } 3 0 5) { }).last_idle
        ∧ (check_net 0 (mkCtx 0 { } 3 0 5) { }).last_idle ≤ (mkCtx 0 { } 3 0 5).now)
      ∧ ((mkCtx 0 { } 3 0 5).last_idle ≤ (check_audio (mkCtx 0 { } 3 0 5) true).last_idle
        ∧ (check_audio (mkCtx 0 { } 3 0 5) true).last_idle ≤ (mkCtx 0 { } 3 0 5).now)
      ∧ ((mkCtx 0 { } 3 0 5).last_idle
            ≤ (check_x_input 10 (mkCtx 0 { } 3 0 5) 500).last_idle
        ∧ (check_x_input 10 (mkCtx 0 { } 3 0 5) 500).last_idle ≤ (mkCtx 0 { } 3 0 5).now)
      ∧ ((mkCtx 0 { } 3 0 5).last_idle ≤ (mkCtx 100 { } 3 0 5).last_idle
        ∧ (mkCtx 100 { } 3 0 5).last_idle ≤ (mkCtx 0 { } 3 0 5).now)) :=
  ⟨by norm_num [mkCtx], by norm_num [mkCtx], by norm_num, by norm_num,
    by norm_num [check_cpu, mkCtx],
    c6_last_activity_forward_only (mkCtx 0 { } 3 0 5) (by norm_num [mkCtx])
      7 2 (by norm_num [mkCtx]) (by norm_num) 0 { } true 500 (by norm_num) 10
      2 (4 / 5) 100 (mkCtx 100 { } 3 0 5) (by norm_num [check_cpu, mkCtx])⟩

/-- Claim C7: a triggering tick issues one sleep request and immediately
sets `last_activity` to `now` — so a later tick whose clock `now2` is at
most `now + idle_duration_required` cannot satisfy the sleep condition
again: no second request can occur until another full required idle
duration accumulates. -/
theorem c7_single_sleep_request (A : Args) (p : Probes) (ctx ctx2 : Context)
    (h : go_to_sleep A p ctx = Except.ok ctx2) (now2 : ℚ)
    (h2 : now2 ≤ ctx.now + A.time) :
    ctx2.last_idle = ctx.now
    ∧ idle_enough A { ctx2 with now := now2 } = false := by
  unfold go_to_sleep at h
  cases hw : (if A.wake_up.isSome then (if !A.pretend then p.wake_cmd else Except.ok ())
              else Except.ok ()) with
  | error e =>
    rw [hw] at h
    simp [Bind.bind, Except.bind] at h
  | ok u =>
    rw [hw] at h
    cases hs : (if !A.pretend then p.sleep_cmd else Except.ok ()) with
    | error e =>
      rw [hs] at h
      simp [Bind.bind, Except.bind] at h
    | ok u2 =>
      rw [hs] at h
      simp [Bind.bind, Except.bind] at h
      subst h
      refine ⟨rfl, ?_⟩
      simp [idle_enough]
      linarith

/-- Claim C7 witness: a pretend-mode sleep transition at `now` = 20 with
default 600 s idle requirement; the next tick at `now2` = 100 does not
re-trigger. -/
theorem c7_single_sleep_witness :
    go_to_sleep { argsNone with pretend := true } probesOk (mkCtx 0 { } 0 0 20)
      = Except.ok (mkCtx 0 { } 20 0 20)
    ∧ (100 : ℚ) ≤ (mkCtx 0 { } 0 0 20).now + Args.time { argsNone with pretend := true }
    ∧ ((mkCtx 0 { } 20 0 20).last_idle = (mkCtx 0 { } 0 0 20).now
      ∧ idle_enough { argsNone with pretend := true }
          { mkCtx 0 { } 20 0 20 with now := 100 } = false) :=
  ⟨by rfl, by norm_num [argsNone, mkCtx],
    c7_single_sleep_request { argsNone with pretend := true } probesOk
      (mkCtx 0 { } 0 0 20) (mkCtx 0 { } 20 0 20) (by rfl) 100
      (by norm_num [argsNone, mkCtx])⟩

/-- Claim C8: for every previous/current network sample and limit, the
network evaluation fully resets `last_idle` to `now` exactly when the
interface name changed, or the received packet count grew by more than the
limit, or the transmitted packet count grew by more than the limit — the
name change alone forces the reset whatever the (possibly negative) packet
deltas are — and it always stores the current sample as the new
baseline. -/
theorem c8_net_reset_iff (network : Int) (ctx : Context) (s : NetStat) :
    ((check_net network ctx s).last_idle =
      if s.ifname ≠ ctx.prev_net_stat.ifname
          ∨ s.rx_packets > ctx.prev_net_stat.rx_packets + network
          ∨ s.tx_packets > ctx.prev_net_stat.tx_packets + network
       then ctx.now else ctx.last_idle)
    ∧ (check_net network ctx s).prev_net_stat = s := by
  by_cases h : s.ifname ≠ ctx.prev_net_stat.ifname
      ∨ s.rx_packets > ctx.prev_net_stat.rx_packets + network
      ∨ s.tx_packets > ctx.prev_net_stat.tx_packets + network
  · simp [check_net, reset_idle, h]
  · simp [check_net, reset_idle, h]

/-- Claim C9: the programmed wake instant is the configured time-of-day on
the date of `now` when that time has not yet passed (relative to `now`),
and on the next date otherwise; in particular for `now` =
2024-01-01T23:00:00 (proleptic ordinal day 738886) and wake time 06:00:00
the instant is 2024-01-02T06:00:00, while for `now` = 2024-01-01T05:00:00
it is 2024-01-01T06:00:00. -/
theorem c9_wakeup_next_occurrence :
    (∀ (now : DateTime) (w : Time), program_wakeup_instant now w =
        if w.toSeconds < now.tod then combine (now.day + 1) w else combine now.day w)
    ∧ program_wakeup_instant ⟨738886, 23 * 3600⟩ ⟨6, 0, 0⟩ = ⟨738887, 6 * 3600⟩
    ∧ program_wakeup_instant ⟨738886, 5 * 3600⟩ ⟨6, 0, 0⟩ = ⟨738886, 6 * 3600⟩ := by
  refine ⟨?_, ?_, ?_⟩
  · intro now w
    unfold program_wakeup_instant combine DateTime.lt
    by_cases h : w.toSeconds < now.tod
    · rw [if_pos (Or.inr ⟨rfl, h⟩), if_pos h]
    · rw [if_neg ?hng, if_neg h]
      case hng =>
        intro hc
        rcases hc with h1 | ⟨_, h2⟩
        · exact absurd h1 (lt_irrefl _)
        · exact h h2
  · norm_num [program_wakeup_instant, DateTime.lt, combine, Time.toSeconds]
  · norm_num [program_wakeup_instant, DateTime.lt, combine, Time.toSeconds]

/-- Claim C10: a full reset zeroes the previous CPU idle baseline, so the
first CPU evaluation after a reset at `t0`, run at a later tick time `now`,
computes `counter / nb_threads / (now - t0)` where `counter` is the
cumulative idle time since boot; whenever `counter` is at least
`threshold * nb_threads * (now - t0)`, no reset of `last_idle` occurs —
regardless of the actual CPU load during the period — and only the stored
counter changes. -/
theorem c10_first_cpu_check_after_reset (t0 now counter : ℚ) (nb : Nat) (c : Int)
    (hnb : 0 < nb) (hel : t0 < now)
    (hcounter : cpu_idle_threshold c * nb * (now - t0) ≤ counter) :
    Context.mk 0 { } t0 t0 now = { reset_ctx t0 with now := now }
    ∧ check_cpu nb (cpu_idle_threshold c) (Context.mk 0 { } t0 t0 now) counter
        = Except.ok (Context.mk counter { } t0 t0 now) := by
  have hnbq : (0 : ℚ) < (nb : ℚ) := by exact_mod_cast hnb
  have helq : (0 : ℚ) < now - t0 := by linarith
  refine ⟨rfl, ?_⟩
  have h3 : ¬((counter - (0 : ℚ)) / (nb : ℚ) / (now - t0) < cpu_idle_threshold c) := by
    rw [sub_zero, div_div, not_lt, le_div_iff₀ (by positivity)]
    calc cpu_idle_threshold c * ((nb : ℚ) * (now - t0))
        = cpu_idle_threshold c * (nb : ℚ) * (now - t0) := by ring
      _ ≤ counter := hcounter
  exact check_cpu_ok nb (cpu_idle_threshold c) (Context.mk 0 { } t0 t0 now) counter
    hnbq.ne' helq.ne' h3

/-- Claim C10 witness: a reset at `t0` = 0 followed by a CPU check at
`now` = 10 with 4 threads, a 20 percent CPU limit and a cumulative idle
counter of 1000 s — well above `0.8 * 4 * 10 = 32` — leaves `last_idle`
untouched. -/
theorem c10_first_cpu_check_witness :
    0 < 4
    ∧ (0 : ℚ) < 10
    ∧ cpu_idle_threshold 20 * (4 : Nat) * ((10 : ℚ) - 0) ≤ 1000
    ∧ (Context.mk 0 { } 0 0 10 = { reset_ctx 0 with now := 10 }
      ∧ check_cpu 4 (cpu_idle_threshold 20) (Context.mk 0 { } 0 0 10) 1000
          = Except.ok (Context.mk 1000 { } 0 0 10)) :=
  ⟨by norm_num, by norm_num, by norm_num [cpu_idle_threshold],
    c10_first_cpu_check_after_reset 0 10 1000 4 20 (by norm_num) (by norm_num)
      (by norm_num [cpu_idle_threshold])⟩

end SleepWhenIdle
